import Mathlib

/-!
Shallow embedding of the semantic cache layer of the repository
(src/api/app/services/semantic_cache.py, class SemanticCacheManager).

Modelling conventions:
* Python floats are modelled as rationals.
* The ChromaDB collection is modelled as an association list from entry id
  to the stored record (document string, metadata fields, embedding vector).
* The sha256 cache key is modelled by the pre-hash joined string itself
  (sha256 is treated as injective, so key collisions are exactly the
  collisions of the joined string, which is the observable content of the
  key function).
* External calls that can raise (collection.get, collection.query,
  collection.upsert, delete_collection) and the embedding provider are
  modelled by a per-call environment: an embedding oracle returning an
  Option, and boolean failure-injection flags; the try/except blocks of the
  Python code become case splits on these.
* Wall-clock elapsed time (time.time() differences) is a nonnegative input
  of the environment.
* json.dumps/json.loads round-tripping is modelled by carrying the
  serialized document string itself as the payload; the similarity score
  that the code injects into the parsed payload on a semantic hit is
  carried as a separate field of the result.
-/

/-- Status tag returned by SemanticCacheManager.get_cached_search. -/
inductive CacheStatus
  | exact_hit
  | semantic_hit
  | miss
deriving DecidableEq, Repr

/-- One record of the ChromaDB "search_cache" collection, as written by
store_search_result: document is json.dumps of the search result, metadata
holds tool, truncated question/context, cached_at and original_search_time,
and the embedding vector of the question. -/
structure CacheEntry where
  document : String
  tool : String
  questionMeta : String
  contextMeta : String
  cached_at : ℚ
  original_search_time : ℚ
  embedding : List ℚ
deriving DecidableEq, Repr

/-- The self.stats dictionary of SemanticCacheManager. -/
structure Stats where
  exact_hits : ℕ
  semantic_hits : ℕ
  misses : ℕ
  total_queries : ℕ
  total_saved_time : ℚ
  total_exact_time : ℚ
  total_semantic_time : ℚ
deriving DecidableEq, Repr

/-- The statistics dictionary as initialized in __init__ and reset_stats. -/
def initStats : Stats :=
  { exact_hits := 0, semantic_hits := 0, misses := 0, total_queries := 0,
    total_saved_time := 0, total_exact_time := 0, total_semantic_time := 0 }

/-- Mutable state of one SemanticCacheManager instance: the collection
contents and the statistics counters. -/
structure CacheState where
  entries : List (String × CacheEntry)
  stats : Stats
deriving DecidableEq, Repr

/-- A fresh manager: empty collection, zeroed statistics. -/
def initState : CacheState := { entries := [], stats := initStats }

/-- Per-call environment: embedding oracle (none models the caught
exception in _generate_embedding, which returns None), failure-injection
flags for the external calls wrapped in try/except, and the clock. -/
structure CallEnv where
  embed : String → Option (List ℚ)
  getFails : Bool
  queryFails : Bool
  upsertFails : Bool
  deleteFails : Bool
  elapsed : ℚ
  now : ℚ

/-- SemanticCacheManager._generate_cache_key: the joined string
tool + "|" + question + "|" + context, hashed with sha256; sha256 is
modelled as injective so the joined string itself stands for the key. -/
def generate_cache_key (tool question context : String) : String :=
  tool ++ "|" ++ question ++ "|" ++ context

/-- collection.get with ids equal to the singleton of the key: the record
stored under that id, if any. -/
def collectionGet (entries : List (String × CacheEntry)) (key : String) :
    Option CacheEntry :=
  (entries.find? (fun p => p.1 == key)).map Prod.snd

/-- Squared L2 distance between two vectors, the distance reported by the
vector store for its default l2 space. -/
def sqDist (xs ys : List ℚ) : ℚ :=
  (List.zipWith (fun a b => (a - b) ^ 2) xs ys).sum

/-- The records eligible for the semantic query: metadata filter
on tool equality, as in the where clause of collection.query. -/
def candidates (entries : List (String × CacheEntry)) (tool : String) :
    List CacheEntry :=
  (entries.filter (fun p => p.2.tool == tool)).map Prod.snd

/-- collection.query with n_results equal to one: the candidate with the
smallest distance to the query embedding, together with that distance. -/
def nearest (qemb : List ℚ) : List CacheEntry → Option (CacheEntry × ℚ)
  | [] => none
  | e :: es =>
    match nearest qemb es with
    | none => some (e, sqDist qemb e.embedding)
    | some (e', d') =>
      if sqDist qemb e.embedding ≤ d' then some (e, sqDist qemb e.embedding)
      else some (e', d')

/-- Result of get_cached_search: the cached document (serialized payload)
or none, the similarity score injected into the payload on a semantic hit,
the status tag, and the retrieval time. -/
structure LookupResult where
  data : Option String
  cache_similarity : Option ℚ
  status : CacheStatus
  retrieval_time : ℚ
deriving DecidableEq, Repr

/-- The increment of total_queries performed at the top of
get_cached_search, before any tier runs. -/
def bumpQueries (s : Stats) : Stats :=
  { s with total_queries := s.total_queries + 1 }

/-- Tiers 2 and 3 of get_cached_search: embed the question (failure is a
definitive miss), query the nearest same-tool neighbor, convert distance to
similarity 1 / (1 + distance), accept iff similarity is at least the
threshold; otherwise miss. Takes the statistics with total_queries already
incremented. -/
def semanticTier (θ : ℚ) (env : CallEnv) (entries : List (String × CacheEntry))
    (s : Stats) (tool question : String) : LookupResult × CacheState :=
  match env.embed question with
  | none =>
    ({ data := none, cache_similarity := none, status := .miss,
       retrieval_time := env.elapsed },
     { entries := entries, stats := { s with misses := s.misses + 1 } })
  | some qemb =>
    if env.queryFails then
      ({ data := none, cache_similarity := none, status := .miss,
         retrieval_time := env.elapsed },
       { entries := entries, stats := { s with misses := s.misses + 1 } })
    else
      match nearest qemb (candidates entries tool) with
      | none =>
        ({ data := none, cache_similarity := none, status := .miss,
           retrieval_time := env.elapsed },
         { entries := entries, stats := { s with misses := s.misses + 1 } })
      | some (e, d) =>
        if θ ≤ 1 / (1 + d) then
          ({ data := some e.document, cache_similarity := some (1 / (1 + d)),
             status := .semantic_hit, retrieval_time := env.elapsed },
           { entries := entries,
             stats := { s with
                          semantic_hits := s.semantic_hits + 1,
                          total_semantic_time := s.total_semantic_time + env.elapsed } })
        else
          ({ data := none, cache_similarity := none, status := .miss,
             retrieval_time := env.elapsed },
           { entries := entries, stats := { s with misses := s.misses + 1 } })

/-- SemanticCacheManager.get_cached_search: increment total_queries,
compute the key, try the exact tier (a raised error is suppressed and falls
through), then the semantic tier. -/
def get_cached_search (θ : ℚ) (env : CallEnv) (st : CacheState)
    (tool question context : String) : LookupResult × CacheState :=
  if env.getFails then
    semanticTier θ env st.entries (bumpQueries st.stats) tool question
  else
    match collectionGet st.entries (generate_cache_key tool question context) with
    | some e =>
      ({ data := some e.document, cache_similarity := none,
         status := .exact_hit, retrieval_time := env.elapsed },
       { entries := st.entries,
         stats := { bumpQueries st.stats with
                      exact_hits := (bumpQueries st.stats).exact_hits + 1,
                      total_exact_time :=
                        (bumpQueries st.stats).total_exact_time + env.elapsed } })
    | none => semanticTier θ env st.entries (bumpQueries st.stats) tool question

/-- collection.upsert at one id: overwrite the record stored under the id
if present, append otherwise. -/
def upsert (entries : List (String × CacheEntry)) (key : String)
    (e : CacheEntry) : List (String × CacheEntry) :=
  if entries.any (fun p => p.1 == key) then
    entries.map (fun p => if p.1 == key then (key, e) else p)
  else entries ++ [(key, e)]

/-- SemanticCacheManager.store_search_result: key, embedding (failure
returns false without persisting), metadata with question and context
truncated to 500 characters (empty context stays empty), upsert; a raised
upsert error is caught and reported as false. -/
def store_search_result (env : CallEnv) (st : CacheState)
    (tool question context search_result : String) (search_time : ℚ) :
    Bool × CacheState :=
  let key := generate_cache_key tool question context
  match env.embed question with
  | none => (false, st)
  | some emb =>
    if env.upsertFails then (false, st)
    else
      (true,
       { entries := upsert st.entries key
           { document := search_result, tool := tool,
             questionMeta := question.take 500,
             contextMeta := if context.isEmpty then "" else context.take 500,
             cached_at := env.now, original_search_time := search_time,
             embedding := emb },
         stats := st.stats })

/-- The dictionary returned by SemanticCacheManager.get_stats. -/
structure StatsReport where
  total_queries : ℕ
  exact_hits : ℕ
  semantic_hits : ℕ
  misses : ℕ
  hit_rate : ℚ
  avg_exact_retrieval_time : ℚ
  avg_semantic_retrieval_time : ℚ
  total_saved_time : ℚ
deriving DecidableEq, Repr

/-- SemanticCacheManager.get_stats: derived metrics from the raw counters;
a pure function of the state. -/
def get_stats (st : CacheState) : StatsReport :=
  let s := st.stats
  { total_queries := s.total_queries
    exact_hits := s.exact_hits
    semantic_hits := s.semantic_hits
    misses := s.misses
    hit_rate :=
      if 0 < s.total_queries then
        ((s.exact_hits + s.semantic_hits : ℕ) : ℚ) / (s.total_queries : ℚ) * 100
      else 0
    avg_exact_retrieval_time :=
      if 0 < s.exact_hits then s.total_exact_time / (s.exact_hits : ℚ) else 0
    avg_semantic_retrieval_time :=
      if 0 < s.semantic_hits then s.total_semantic_time / (s.semantic_hits : ℚ)
      else 0
    total_saved_time := s.total_saved_time }

/-- SemanticCacheManager.reset_stats: zero every counter, keep entries. -/
def reset_stats (st : CacheState) : CacheState :=
  { entries := st.entries, stats := initStats }

/-- SemanticCacheManager.clear_cache: delete and recreate the collection
(statistics untouched); a raised error is caught and reported as false. -/
def clear_cache (env : CallEnv) (st : CacheState) : Bool × CacheState :=
  if env.deleteFails then (false, st)
  else (true, { entries := [], stats := st.stats })

/-- One public operation of the manager, for reasoning about arbitrary
operation sequences. -/
inductive Op
  | lookup (env : CallEnv) (tool question context : String)
  | store (env : CallEnv) (tool question context result : String) (t : ℚ)
  | stats
  | reset
  | clear (env : CallEnv)

/-- State transition of one public operation (get_stats is pure). -/
def applyOp (θ : ℚ) (st : CacheState) : Op → CacheState
  | .lookup env t q c => (get_cached_search θ env st t q c).2
  | .store env t q c r tm => (store_search_result env st t q c r tm).2
  | .stats => st
  | .reset => reset_stats st
  | .clear env => (clear_cache env st).2

/-- Run a sequence of public operations. -/
def runOps (θ : ℚ) (st : CacheState) : List Op → CacheState
  | [] => st
  | op :: ops => runOps θ (applyOp θ st op) ops

/-- Arguments of one get_cached_search call. -/
structure LookupCall where
  env : CallEnv
  tool : String
  question : String
  context : String

/-- Run a sequence of lookups, collecting the results in order. -/
def runLookups (θ : ℚ) (st : CacheState) :
    List LookupCall → CacheState × List LookupResult
  | [] => (st, [])
  | c :: cs =>
    let r := get_cached_search θ c.env st c.tool c.question c.context
    let rest := runLookups θ r.2 cs
    (rest.1, r.1 :: rest.2)

/-- Number of results in a trace with the given status. -/
def countStatus (s : CacheStatus) (rs : List LookupResult) : ℕ :=
  (rs.filter (fun r => r.status == s)).length

/-- Sum of the retrieval times of the results with the given status. -/
def tierTime (s : CacheStatus) (rs : List LookupResult) : ℚ :=
  ((rs.filter (fun r => r.status == s)).map (fun r => r.retrieval_time)).sum

/-- The statistics update one get_cached_search call performs, as a
function of its outcome: total_queries plus one, the matching outcome
counter plus one, and the matching time accumulator plus the retrieval
time (misses record no time). -/
def recordOutcome (s : Stats) : CacheStatus → ℚ → Stats
  | .exact_hit, tm =>
    { s with
        total_queries := s.total_queries + 1,
        exact_hits := s.exact_hits + 1,
        total_exact_time := s.total_exact_time + tm }
  | .semantic_hit, tm =>
    { s with
        total_queries := s.total_queries + 1,
        semantic_hits := s.semantic_hits + 1,
        total_semantic_time := s.total_semantic_time + tm }
  | .miss, _ =>
    { s with
        total_queries := s.total_queries + 1,
        misses := s.misses + 1 }

/-- The counter bookkeeping invariant: the three outcome counters
partition the query counter. -/
def statsInv (s : Stats) : Prop :=
  s.exact_hits + s.semantic_hits + s.misses = s.total_queries

/-- A healthy environment: the embedding provider answers, no external
call fails. -/
def envOK : CallEnv :=
  { embed := fun _ => some [1], getFails := false, queryFails := false,
    upsertFails := false, deleteFails := false, elapsed := 0, now := 0 }

/-- A fully failing environment: the embedding provider fails and every
external call raises. -/
def envFail : CallEnv :=
  { embed := fun _ => none, getFails := true, queryFails := true,
    upsertFails := true, deleteFails := true, elapsed := 0, now := 0 }

/-- A healthy environment whose embedding provider answers with the zero
vector, used to exercise the similarity boundary. -/
def envW : CallEnv :=
  { embed := fun _ => some [0], getFails := false, queryFails := false,
    upsertFails := false, deleteFails := false, elapsed := 0, now := 0 }

/-- A concrete stored record under tool jina with embedding the one
vector. -/
def entryW : CacheEntry :=
  { document := "DOC", tool := "jina", questionMeta := "Q", contextMeta := "",
    cached_at := 0, original_search_time := 0, embedding := [1] }

/-- A concrete cache state holding exactly entryW under an id that no
tested fingerprint collides with. -/
def stW : CacheState :=
  { entries := [("k", entryW)], stats := initStats }

theorem semanticTier_retrieval_time (θ : ℚ) (env : CallEnv)
    (entries : List (String × CacheEntry)) (s : Stats) (tool q : String) :
    (semanticTier θ env entries s tool q).1.retrieval_time = env.elapsed := by
  unfold semanticTier
  split
  · rfl
  · split
    · rfl
    · split
      · rfl
      · split <;> rfl

theorem semanticTier_entries (θ : ℚ) (env : CallEnv)
    (entries : List (String × CacheEntry)) (s : Stats) (tool q : String) :
    (semanticTier θ env entries s tool q).2.entries = entries := by
  unfold semanticTier
  split
  · rfl
  · split
    · rfl
    · split
      · rfl
      · split <;> rfl

theorem semanticTier_status_ne_exact (θ : ℚ) (env : CallEnv)
    (entries : List (String × CacheEntry)) (s : Stats) (tool q : String) :
    (semanticTier θ env entries s tool q).1.status ≠ CacheStatus.exact_hit := by
  unfold semanticTier
  split
  · simp
  · split
    · simp
    · split
      · simp
      · split <;> simp

theorem semanticTier_stats (θ : ℚ) (env : CallEnv)
    (entries : List (String × CacheEntry)) (s : Stats) (tool q : String) :
    (semanticTier θ env entries (bumpQueries s) tool q).2.stats
      = recordOutcome s (semanticTier θ env entries (bumpQueries s) tool q).1.status
          env.elapsed := by
  unfold semanticTier
  split
  · rfl
  · split
    · rfl
    · split
      · rfl
      · split <;> rfl

theorem lookup_retrieval_time (θ : ℚ) (env : CallEnv) (st : CacheState)
    (tool q c : String) :
    (get_cached_search θ env st tool q c).1.retrieval_time = env.elapsed := by
  unfold get_cached_search
  split
  · exact semanticTier_retrieval_time ..
  · split
    · rfl
    · exact semanticTier_retrieval_time ..

theorem lookup_entries (θ : ℚ) (env : CallEnv) (st : CacheState)
    (tool q c : String) :
    (get_cached_search θ env st tool q c).2.entries = st.entries := by
  unfold get_cached_search
  split
  · exact semanticTier_entries ..
  · split
    · rfl
    · exact semanticTier_entries ..

theorem lookup_stats (θ : ℚ) (env : CallEnv) (st : CacheState)
    (tool q c : String) :
    (get_cached_search θ env st tool q c).2.stats
      = recordOutcome st.stats (get_cached_search θ env st tool q c).1.status
          env.elapsed := by
  unfold get_cached_search
  split
  · exact semanticTier_stats ..
  · split
    · rfl
    · exact semanticTier_stats ..

theorem candidates_eq_nil (entries : List (String × CacheEntry)) (tool : String)
    (h : ∀ p ∈ entries, p.2.tool ≠ tool) : candidates entries tool = [] := by
  unfold candidates
  rw [List.filter_eq_nil_iff.mpr, List.map_nil]
  intro p hp
  simpa using h p hp

theorem semanticTier_no_candidates (θ : ℚ) (env : CallEnv)
    (entries : List (String × CacheEntry)) (s : Stats) (tool q : String)
    (h : candidates entries tool = []) :
    (semanticTier θ env entries s tool q).1.status = CacheStatus.miss
    ∧ (semanticTier θ env entries s tool q).1.data = none := by
  unfold semanticTier
  split
  · exact ⟨rfl, rfl⟩
  · split
    · exact ⟨rfl, rfl⟩
    · rw [h]
      simp [nearest]

theorem lookup_nil_entries (θ : ℚ) (env : CallEnv) (st : CacheState)
    (tool q c : String) (h : st.entries = []) :
    (get_cached_search θ env st tool q c).1.status = CacheStatus.miss
    ∧ (get_cached_search θ env st tool q c).1.data = none := by
  have hc : candidates st.entries tool = [] := by rw [h]; rfl
  have hk : collectionGet st.entries (generate_cache_key tool q c) = none := by
    rw [h]; rfl
  unfold get_cached_search
  split
  · exact semanticTier_no_candidates θ env st.entries _ tool q hc
  · rw [hk]
    exact semanticTier_no_candidates θ env st.entries _ tool q hc

/-- C8: the cache key function is not injective across distinct triples:
because the key is the hash of the three fields joined by the literal
character "|", the distinct triples ("a|b", "c", ctx) and ("a", "b|c", ctx)
yield the same fingerprint for every ctx, so two different
(tool, question, context) requests can resolve to the same cache entry. -/
theorem c8_cache_key_collision (ctx : String) :
    generate_cache_key "a|b" "c" ctx = generate_cache_key "a" "b|c" ctx
    ∧ (("a|b", "c") : String × String) ≠ (("a", "b|c") : String × String) :=
  ⟨rfl, by decide⟩

/-- C4: no public operation raises to the caller; in particular, when the
Tier-1 exact lookup raises, get_cached_search suppresses the error and
falls through to Tier 2 (so it never reports an exact hit), a failing
upsert makes store_search_result return false with the state unchanged,
and a failing delete makes clear_cache return false with the state
unchanged. In the embedding every operation is a total function, so no
call path escapes the explicit return channels. -/
theorem c4_error_suppression (θ : ℚ) (env : CallEnv) (st : CacheState)
    (tool q c doc : String) (tm : ℚ)
    (hg : env.getFails = true) (hu : env.upsertFails = true)
    (hd : env.deleteFails = true) :
    get_cached_search θ env st tool q c
      = semanticTier θ env st.entries (bumpQueries st.stats) tool q
    ∧ (get_cached_search θ env st tool q c).1.status ≠ CacheStatus.exact_hit
    ∧ store_search_result env st tool q c doc tm = (false, st)
    ∧ clear_cache env st = (false, st) := by
  have h1 : get_cached_search θ env st tool q c
      = semanticTier θ env st.entries (bumpQueries st.stats) tool q := by
    unfold get_cached_search; rw [hg]; simp
  refine ⟨h1, ?_, ?_, ?_⟩
  · rw [h1]
    exact semanticTier_status_ne_exact θ env st.entries (bumpQueries st.stats) tool q
  · unfold store_search_result
    cases henv : env.embed q
    · rfl
    · rw [hu]; simp
  · unfold clear_cache; rw [hd]; simp

/-- C4 witness: in a fully failing environment on a concrete state, the
lookup falls through to the semantic tier and is not an exact hit, store
reports false, and clear reports false. -/
theorem c4_error_suppression_witness :
    get_cached_search (9/10) envFail initState "jina" "Q" ""
      = semanticTier (9/10) envFail initState.entries (bumpQueries initState.stats)
          "jina" "Q"
    ∧ (get_cached_search (9/10) envFail initState "jina" "Q" "").1.status
        ≠ CacheStatus.exact_hit
    ∧ store_search_result envFail initState "jina" "Q" "" "DOC" 2 = (false, initState)
    ∧ clear_cache envFail initState = (false, initState) :=
  c4_error_suppression (9/10) envFail initState "jina" "Q" "" "DOC" 2 rfl rfl rfl

/-- C5: when the embedding provider fails, a lookup whose Tier 1 missed
returns no document with status miss, increments only the misses counter,
leaves the entries untouched (the semantic search is never attempted), and
store_search_result returns false without persisting anything. -/
theorem c5_embedding_failure (θ : ℚ) (env : CallEnv) (st : CacheState)
    (tool q c doc : String) (tm : ℚ)
    (hemb : env.embed q = none)
    (hkey : collectionGet st.entries (generate_cache_key tool q c) = none) :
    (get_cached_search θ env st tool q c).1.data = none
    ∧ (get_cached_search θ env st tool q c).1.status = CacheStatus.miss
    ∧ (get_cached_search θ env st tool q c).2.entries = st.entries
    ∧ (get_cached_search θ env st tool q c).2.stats
        = { bumpQueries st.stats with misses := st.stats.misses + 1 }
    ∧ store_search_result env st tool q c doc tm = (false, st) := by
  have hsem : semanticTier θ env st.entries (bumpQueries st.stats) tool q
      = ({ data := none, cache_similarity := none, status := .miss,
           retrieval_time := env.elapsed },
         { entries := st.entries,
           stats := { bumpQueries st.stats with misses := st.stats.misses + 1 } }) := by
    unfold semanticTier; rw [hemb]
    rfl
  have h1 : get_cached_search θ env st tool q c
      = semanticTier θ env st.entries (bumpQueries st.stats) tool q := by
    unfold get_cached_search
    by_cases hg : env.getFails <;> simp [hg, hkey]
  rw [h1, hsem]
  refine ⟨rfl, rfl, rfl, rfl, ?_⟩
  unfold store_search_result; rw [hemb]

/-- C5 witness: in the failing environment on the fresh state, the lookup
is a miss with the misses counter incremented and store reports false. -/
theorem c5_embedding_failure_witness :
    (get_cached_search (9/10) envFail initState "jina" "Q" "").1.data = none
    ∧ (get_cached_search (9/10) envFail initState "jina" "Q" "").1.status
        = CacheStatus.miss
    ∧ (get_cached_search (9/10) envFail initState "jina" "Q" "").2.entries
        = initState.entries
    ∧ (get_cached_search (9/10) envFail initState "jina" "Q" "").2.stats
        = { bumpQueries initState.stats with misses := initState.stats.misses + 1 }
    ∧ store_search_result envFail initState "jina" "Q" "" "DOC" 2 = (false, initState) :=
  c5_embedding_failure (9/10) envFail initState "jina" "Q" "" "DOC" 2 rfl rfl

/-- C7: a successful clear_cache reports true, destroys every entry and
leaves the statistics unchanged; any lookup on the cleared state is a miss
(so no previously stored triple yields an exact hit); a failing clear
reports false instead of raising and changes nothing. -/
theorem c7_clear_all_entries (θ : ℚ) (env envF envL : CallEnv) (st : CacheState)
    (tool q c : String)
    (hd : env.deleteFails = false) (hdF : envF.deleteFails = true) :
    (clear_cache env st).1 = true
    ∧ (clear_cache env st).2.entries = []
    ∧ (clear_cache env st).2.stats = st.stats
    ∧ (get_cached_search θ envL (clear_cache env st).2 tool q c).1.status
        = CacheStatus.miss
    ∧ clear_cache envF st = (false, st) := by
  have hc : clear_cache env st = (true, { entries := [], stats := st.stats }) := by
    unfold clear_cache; rw [hd]; simp
  refine ⟨by rw [hc], by rw [hc], by rw [hc], ?_, by unfold clear_cache; rw [hdF]; simp⟩
  exact (lookup_nil_entries θ envL _ tool q c (by rw [hc])).1

/-- C7 witness: clearing a concrete one-entry state succeeds, empties the
entries, keeps the statistics, makes the stored triple a miss, and a
failing clear reports false. -/
theorem c7_clear_all_entries_witness :
    (clear_cache envOK stW).1 = true
    ∧ (clear_cache envOK stW).2.entries = []
    ∧ (clear_cache envOK stW).2.stats = stW.stats
    ∧ (get_cached_search (9/10) envOK (clear_cache envOK stW).2 "jina" "Q" "").1.status
        = CacheStatus.miss
    ∧ clear_cache envFail stW = (false, stW) :=
  c7_clear_all_entries (9/10) envOK envFail envOK stW "jina" "Q" "" rfl rfl

/-- C1: on a cold cache a lookup of any triple returns status miss with no
document; after store_search_result of the triple returns true (the
embedding provider answered and the upsert did not fail), a subsequent
lookup of the identical triple returns status exact_hit with exactly the
stored document. -/
theorem c1_miss_store_hit (θ : ℚ) (env1 env2 env3 : CallEnv)
    (tool q c doc : String) (tm : ℚ)
    (hemb : (env2.embed q).isSome = true)
    (hup : env2.upsertFails = false)
    (hget : env3.getFails = false) :
    (get_cached_search θ env1 initState tool q c).1.status = CacheStatus.miss
    ∧ (get_cached_search θ env1 initState tool q c).1.data = none
    ∧ (store_search_result env2 (get_cached_search θ env1 initState tool q c).2
        tool q c doc tm).1 = true
    ∧ (get_cached_search θ env3
        (store_search_result env2 (get_cached_search θ env1 initState tool q c).2
          tool q c doc tm).2 tool q c).1.status = CacheStatus.exact_hit
    ∧ (get_cached_search θ env3
        (store_search_result env2 (get_cached_search θ env1 initState tool q c).2
          tool q c doc tm).2 tool q c).1.data = some doc := by
  obtain ⟨emb, hembq⟩ := Option.isSome_iff_exists.mp hemb
  have hm := lookup_nil_entries θ env1 initState tool q c rfl
  have hent : (get_cached_search θ env1 initState tool q c).2.entries = [] :=
    lookup_entries θ env1 initState tool q c
  have hstore : store_search_result env2 (get_cached_search θ env1 initState tool q c).2
      tool q c doc tm
      = (true,
         { entries := [(generate_cache_key tool q c,
             { document := doc, tool := tool, questionMeta := q.take 500,
               contextMeta := if c.isEmpty then "" else c.take 500,
               cached_at := env2.now, original_search_time := tm,
               embedding := emb })],
           stats := (get_cached_search θ env1 initState tool q c).2.stats }) := by
    unfold store_search_result
    rw [hembq, hup]
    simp [upsert, hent]
  refine ⟨hm.1, hm.2, by rw [hstore], ?_, ?_⟩ <;>
  · rw [hstore]
    unfold get_cached_search
    rw [hget]
    simp [collectionGet, List.find?]

/-- C1 witness: the miss, store, exact-hit round trip at the concrete
triple jina, Q, https with the document DOC. -/
theorem c1_miss_store_hit_witness :
    (get_cached_search (9/10) envOK initState "jina" "Q" "https://x.com").1.status
        = CacheStatus.miss
    ∧ (get_cached_search (9/10) envOK initState "jina" "Q" "https://x.com").1.data
        = none
    ∧ (store_search_result envOK
        (get_cached_search (9/10) envOK initState "jina" "Q" "https://x.com").2
        "jina" "Q" "https://x.com" "DOC" 2).1 = true
    ∧ (get_cached_search (9/10) envOK
        (store_search_result envOK
          (get_cached_search (9/10) envOK initState "jina" "Q" "https://x.com").2
          "jina" "Q" "https://x.com" "DOC" 2).2 "jina" "Q" "https://x.com").1.status
        = CacheStatus.exact_hit
    ∧ (get_cached_search (9/10) envOK
        (store_search_result envOK
          (get_cached_search (9/10) envOK initState "jina" "Q" "https://x.com").2
          "jina" "Q" "https://x.com" "DOC" 2).2 "jina" "Q" "https://x.com").1.data
        = some "DOC" :=
  c1_miss_store_hit (9/10) envOK envOK envOK "jina" "Q" "https://x.com" "DOC" 2
    rfl rfl rfl

/-- C2 counterexample: the claim "for every cache state in which every
stored entry's tool differs from the query's tool, the lookup is a miss"
is false: storing under the triple a, b pipe c, d and looking up the
distinct triple a pipe b, c, d gives colliding fingerprints, so the lookup
returns the cached document of the other tool as an exact hit, not a
miss. -/
theorem c2_tool_isolation_counterexample :
    (∀ p ∈ (store_search_result envOK initState "a" "b|c" "d" "DOC" 2).2.entries,
        p.2.tool ≠ "a|b")
    ∧ (get_cached_search (9/10) envOK
        (store_search_result envOK initState "a" "b|c" "d" "DOC" 2).2
        "a|b" "c" "d").1.status ≠ CacheStatus.miss
    ∧ (get_cached_search (9/10) envOK
        (store_search_result envOK initState "a" "b|c" "d" "DOC" 2).2
        "a|b" "c" "d").1.status = CacheStatus.exact_hit
    ∧ (get_cached_search (9/10) envOK
        (store_search_result envOK initState "a" "b|c" "d" "DOC" 2).2
        "a|b" "c" "d").1.data = some "DOC" := by
  refine ⟨?_, ?_, ?_, ?_⟩ <;> decide

/-- C2 amended: if every stored entry's tool differs from the query's
tool, the lookup never returns a semantic hit; and if additionally the
query's fingerprint matches no stored id (as in the jina versus tavily
scenario, where the joined strings differ), the lookup is a miss. Only the
Tier-1 fingerprint collision exhibited in the counterexample can cross the
tool boundary. -/
theorem c2_tool_isolation (θ : ℚ) (env : CallEnv) (st : CacheState)
    (tool q c : String)
    (hiso : ∀ p ∈ st.entries, p.2.tool ≠ tool) :
    (get_cached_search θ env st tool q c).1.status ≠ CacheStatus.semantic_hit
    ∧ (collectionGet st.entries (generate_cache_key tool q c) = none →
        (get_cached_search θ env st tool q c).1.status = CacheStatus.miss) := by
  have hc := candidates_eq_nil st.entries tool hiso
  unfold get_cached_search
  split
  · have h := semanticTier_no_candidates θ env st.entries (bumpQueries st.stats) tool q hc
    exact ⟨by rw [h.1]; decide, fun _ => h.1⟩
  · cases hk : collectionGet st.entries (generate_cache_key tool q c) with
    | some e =>
      refine ⟨?_, ?_⟩
      · intro hcon
        simp at hcon
      · intro h
        simp at h
    | none =>
      have h := semanticTier_no_candidates θ env st.entries (bumpQueries st.stats) tool q hc
      exact ⟨by rw [h.1]; decide, fun _ => h.1⟩

/-- C2 amended witness: with a jina entry stored, a tavily lookup of the
same question is not a semantic hit, and since the fingerprints differ it
is a miss. -/
theorem c2_tool_isolation_witness :
    ((get_cached_search (9/10) envW stW "tavily" "Q" "").1.status
        ≠ CacheStatus.semantic_hit
      ∧ (collectionGet stW.entries (generate_cache_key "tavily" "Q" "") = none →
          (get_cached_search (9/10) envW stW "tavily" "Q" "").1.status
            = CacheStatus.miss))
    ∧ (get_cached_search (9/10) envW stW "tavily" "Q" "").1.status
        = CacheStatus.miss :=
  ⟨c2_tool_isolation (9/10) envW stW "tavily" "Q" "" (by decide),
   (c2_tool_isolation (9/10) envW stW "tavily" "Q" "" (by decide)).2 rfl⟩

/-- C3: in Tier 2 only the single nearest-neighbor candidate is
considered, and the acceptance boundary is inclusive: when Tier 1 missed
and the query returned the nearest candidate at distance d, a similarity
1 / (1 + d) exactly equal to the threshold yields a semantic hit carrying
that candidate's document and similarity, a similarity strictly below the
threshold yields a miss, and in general similarity at least the threshold
yields the hit. -/
theorem c3_threshold_boundary (θ : ℚ) (env : CallEnv) (st : CacheState)
    (tool q c : String) (e : CacheEntry) (d : ℚ) (emb : List ℚ)
    (hget : env.getFails = false)
    (hkey : collectionGet st.entries (generate_cache_key tool q c) = none)
    (hembq : env.embed q = some emb)
    (hqf : env.queryFails = false)
    (hn : nearest emb (candidates st.entries tool) = some (e, d)) :
    (1 / (1 + d) = θ →
      (get_cached_search θ env st tool q c).1.status = CacheStatus.semantic_hit
      ∧ (get_cached_search θ env st tool q c).1.data = some e.document
      ∧ (get_cached_search θ env st tool q c).1.cache_similarity
          = some (1 / (1 + d)))
    ∧ (1 / (1 + d) < θ →
      (get_cached_search θ env st tool q c).1.status = CacheStatus.miss
      ∧ (get_cached_search θ env st tool q c).1.data = none)
    ∧ (θ ≤ 1 / (1 + d) →
      (get_cached_search θ env st tool q c).1.status = CacheStatus.semantic_hit
      ∧ (get_cached_search θ env st tool q c).1.data = some e.document) := by
  have h1 : get_cached_search θ env st tool q c
      = semanticTier θ env st.entries (bumpQueries st.stats) tool q := by
    unfold get_cached_search
    rw [hget]
    simp [hkey]
  refine ⟨?_, ?_, ?_⟩
  · intro hbd
    have hle : θ ≤ 1 / (1 + d) := le_of_eq hbd.symm
    rw [one_div] at hle
    rw [h1]
    unfold semanticTier
    rw [hembq]
    simp [hqf, hn, hle]
  · intro hlt
    have hnle : ¬ θ ≤ 1 / (1 + d) := not_le.mpr hlt
    rw [one_div] at hnle
    rw [h1]
    unfold semanticTier
    rw [hembq]
    simp [hqf, hn, hnle]
  · intro hle
    rw [one_div] at hle
    rw [h1]
    unfold semanticTier
    rw [hembq]
    simp [hqf, hn, hle]

/-- C3 witness: with one jina entry at squared distance one from the query
embedding and the threshold equal to the resulting similarity, the lookup
is a semantic hit carrying the entry's document and that similarity. -/
theorem c3_threshold_boundary_witness :
    (get_cached_search (1 / (1 + sqDist [0] [1])) envW stW "jina" "Q" "").1.status
        = CacheStatus.semantic_hit
    ∧ (get_cached_search (1 / (1 + sqDist [0] [1])) envW stW "jina" "Q" "").1.data
        = some entryW.document
    ∧ (get_cached_search (1 / (1 + sqDist [0] [1])) envW stW "jina" "Q" "").1.cache_similarity
        = some (1 / (1 + sqDist [0] [1])) :=
  (c3_threshold_boundary (1 / (1 + sqDist [0] [1])) envW stW "jina" "Q" ""
    entryW (sqDist [0] [1]) [0] rfl rfl rfl rfl rfl).1 rfl

theorem store_stats (env : CallEnv) (st : CacheState)
    (tool q c doc : String) (tm : ℚ) :
    (store_search_result env st tool q c doc tm).2.stats = st.stats := by
  unfold store_search_result
  split
  · rfl
  · split <;> rfl

theorem clear_stats (env : CallEnv) (st : CacheState) :
    (clear_cache env st).2.stats = st.stats := by
  unfold clear_cache
  split <;> rfl

theorem countStatus_cons (s : CacheStatus) (r : LookupResult)
    (rs : List LookupResult) :
    countStatus s (r :: rs)
      = (if r.status = s then 1 else 0) + countStatus s rs := by
  unfold countStatus
  by_cases h : r.status = s <;> simp [List.filter_cons, h] <;> omega

theorem tierTime_cons (s : CacheStatus) (r : LookupResult)
    (rs : List LookupResult) :
    tierTime s (r :: rs)
      = (if r.status = s then r.retrieval_time else 0) + tierTime s rs := by
  unfold tierTime
  by_cases h : r.status = s <;> simp [List.filter_cons, h]

theorem runLookups_length (θ : ℚ) (calls : List LookupCall) :
    ∀ st : CacheState, (runLookups θ st calls).2.length = calls.length := by
  induction calls with
  | nil => intro st; rfl
  | cons c cs ih =>
    intro st
    have hcons : runLookups θ st (c :: cs)
        = ((runLookups θ (get_cached_search θ c.env st c.tool c.question c.context).2 cs).1,
           (get_cached_search θ c.env st c.tool c.question c.context).1
             :: (runLookups θ (get_cached_search θ c.env st c.tool c.question c.context).2 cs).2) := rfl
    rw [hcons]
    simp [ih ((get_cached_search θ c.env st c.tool c.question c.context).2)]

theorem runLookups_stats_spec (θ : ℚ) (calls : List LookupCall) :
    ∀ st : CacheState,
    (runLookups θ st calls).1.stats.total_queries
        = st.stats.total_queries + (runLookups θ st calls).2.length
    ∧ (runLookups θ st calls).1.stats.exact_hits
        = st.stats.exact_hits + countStatus CacheStatus.exact_hit (runLookups θ st calls).2
    ∧ (runLookups θ st calls).1.stats.semantic_hits
        = st.stats.semantic_hits
            + countStatus CacheStatus.semantic_hit (runLookups θ st calls).2
    ∧ (runLookups θ st calls).1.stats.misses
        = st.stats.misses + countStatus CacheStatus.miss (runLookups θ st calls).2
    ∧ (runLookups θ st calls).1.stats.total_exact_time
        = st.stats.total_exact_time
            + tierTime CacheStatus.exact_hit (runLookups θ st calls).2
    ∧ (runLookups θ st calls).1.stats.total_semantic_time
        = st.stats.total_semantic_time
            + tierTime CacheStatus.semantic_hit (runLookups θ st calls).2
    ∧ (runLookups θ st calls).1.stats.total_saved_time
        = st.stats.total_saved_time := by
  induction calls with
  | nil =>
    intro st
    simp [runLookups, countStatus, tierTime]
  | cons c cs ih =>
    intro st
    obtain ⟨i1, i2, i3, i4, i5, i6, i7⟩ :=
      ih (get_cached_search θ c.env st c.tool c.question c.context).2
    have hst := lookup_stats θ c.env st c.tool c.question c.context
    have htm := lookup_retrieval_time θ c.env st c.tool c.question c.context
    have hcons : runLookups θ st (c :: cs)
        = ((runLookups θ (get_cached_search θ c.env st c.tool c.question c.context).2 cs).1,
           (get_cached_search θ c.env st c.tool c.question c.context).1
             :: (runLookups θ (get_cached_search θ c.env st c.tool c.question c.context).2 cs).2) := rfl
    rw [hcons]
    cases hstatus : (get_cached_search θ c.env st c.tool c.question c.context).1.status with
    | exact_hit =>
      rw [hstatus] at hst
      refine ⟨?_, ?_, ?_, ?_, ?_, ?_, ?_⟩ <;>
        simp [i1, i2, i3, i4, i5, i6, i7, hst, htm, hstatus, recordOutcome,
          countStatus_cons, tierTime_cons] <;> ring
    | semantic_hit =>
      rw [hstatus] at hst
      refine ⟨?_, ?_, ?_, ?_, ?_, ?_, ?_⟩ <;>
        simp [i1, i2, i3, i4, i5, i6, i7, hst, htm, hstatus, recordOutcome,
          countStatus_cons, tierTime_cons] <;> ring
    | miss =>
      rw [hstatus] at hst
      refine ⟨?_, ?_, ?_, ?_, ?_, ?_, ?_⟩ <;>
        simp [i1, i2, i3, i4, i5, i6, i7, hst, htm, hstatus, recordOutcome,
          countStatus_cons, tierTime_cons] <;> ring

/-- C6: after any sequence of lookups on a fresh manager comprising k1
exact hits, k2 semantic hits and k3 misses, get_stats reports total_queries
equal to the number of lookups, each raw counter equal to the trace count,
hit_rate equal to (k1 plus k2) over N times 100 (0 when no queries), and
each per-tier average retrieval time equal to that tier's accumulated time
sum divided by that tier's hit count (0 when that tier has zero hits);
get_stats is a pure function of the state. -/
theorem c6_statistics_accuracy (θ : ℚ) (calls : List LookupCall) :
    (get_stats (runLookups θ initState calls).1).total_queries = calls.length
    ∧ (get_stats (runLookups θ initState calls).1).exact_hits
        = countStatus CacheStatus.exact_hit (runLookups θ initState calls).2
    ∧ (get_stats (runLookups θ initState calls).1).semantic_hits
        = countStatus CacheStatus.semantic_hit (runLookups θ initState calls).2
    ∧ (get_stats (runLookups θ initState calls).1).misses
        = countStatus CacheStatus.miss (runLookups θ initState calls).2
    ∧ (get_stats (runLookups θ initState calls).1).hit_rate
        = (if 0 < calls.length then
            ((countStatus CacheStatus.exact_hit (runLookups θ initState calls).2
               + countStatus CacheStatus.semantic_hit (runLookups θ initState calls).2
               : ℕ) : ℚ) / (calls.length : ℚ) * 100
           else 0)
    ∧ (get_stats (runLookups θ initState calls).1).avg_exact_retrieval_time
        = (if 0 < countStatus CacheStatus.exact_hit (runLookups θ initState calls).2
           then
            tierTime CacheStatus.exact_hit (runLookups θ initState calls).2
              / ((countStatus CacheStatus.exact_hit (runLookups θ initState calls).2
                  : ℕ) : ℚ)
           else 0)
    ∧ (get_stats (runLookups θ initState calls).1).avg_semantic_retrieval_time
        = (if 0 < countStatus CacheStatus.semantic_hit (runLookups θ initState calls).2
           then
            tierTime CacheStatus.semantic_hit (runLookups θ initState calls).2
              / ((countStatus CacheStatus.semantic_hit (runLookups θ initState calls).2
                  : ℕ) : ℚ)
           else 0) := by
  obtain ⟨i1, i2, i3, i4, i5, i6, i7⟩ := runLookups_stats_spec θ calls initState
  have hlen := runLookups_length θ calls initState
  have h0q : initState.stats.total_queries = 0 := rfl
  have h0e : initState.stats.exact_hits = 0 := rfl
  have h0s : initState.stats.semantic_hits = 0 := rfl
  have h0m : initState.stats.misses = 0 := rfl
  have h0et : initState.stats.total_exact_time = 0 := rfl
  have h0st : initState.stats.total_semantic_time = 0 := rfl
  rw [h0q, hlen, Nat.zero_add] at i1
  rw [h0e, Nat.zero_add] at i2
  rw [h0s, Nat.zero_add] at i3
  rw [h0m, Nat.zero_add] at i4
  rw [h0et, zero_add] at i5
  rw [h0st, zero_add] at i6
  unfold get_stats
  refine ⟨i1, i2, i3, i4, ?_, ?_, ?_⟩ <;> simp only [i1, i2, i3, i5, i6]

/-- C9: after every completed lookup and every operation sequence on a
fresh manager, the statistics counters satisfy
exact_hits plus semantic_hits plus misses equals total_queries. -/
theorem c9_counters_partition (θ : ℚ) (ops : List Op) :
    statsInv (runOps θ initState ops).stats := by
  have hlook : ∀ (env : CallEnv) (st : CacheState) (t q c : String),
      statsInv st.stats → statsInv (get_cached_search θ env st t q c).2.stats := by
    intro env st t q c h
    rw [lookup_stats θ env st t q c]
    cases (get_cached_search θ env st t q c).1.status <;>
      simp [recordOutcome, statsInv] at * <;> omega
  have hstep : ∀ (ops : List Op) (st : CacheState),
      statsInv st.stats → statsInv (runOps θ st ops).stats := by
    intro ops
    induction ops with
    | nil => intro st h; exact h
    | cons op ops ih =>
      intro st h
      refine ih _ ?_
      cases op with
      | lookup env t q c => exact hlook env st t q c h
      | store env t q c r tm =>
        unfold applyOp
        rw [store_stats]
        exact h
      | stats => exact h
      | reset => simp [applyOp, reset_stats, statsInv, initStats]
      | clear env =>
        unfold applyOp
        rw [clear_stats]
        exact h
  exact hstep ops initState (by simp [statsInv, initState, initStats])

/-- C10: the total_saved_time field reported by get_stats is identically
zero after every sequence of operations on a fresh manager: it is
initialized and reset to zero and no operation ever adds to it. -/
theorem c10_total_saved_time_zero (θ : ℚ) (ops : List Op) :
    (get_stats (runOps θ initState ops)).total_saved_time = 0 := by
  have hlook : ∀ (env : CallEnv) (st : CacheState) (t q c : String),
      st.stats.total_saved_time = 0 →
      (get_cached_search θ env st t q c).2.stats.total_saved_time = 0 := by
    intro env st t q c h
    rw [lookup_stats θ env st t q c]
    cases (get_cached_search θ env st t q c).1.status <;>
      simp [recordOutcome] <;> exact h
  have hstep : ∀ (ops : List Op) (st : CacheState),
      st.stats.total_saved_time = 0 →
      (runOps θ st ops).stats.total_saved_time = 0 := by
    intro ops
    induction ops with
    | nil => intro st h; exact h
    | cons op ops ih =>
      intro st h
      refine ih _ ?_
      cases op with
      | lookup env t q c => exact hlook env st t q c h
      | store env t q c r tm =>
        unfold applyOp
        rw [store_stats]
        exact h
      | stats => exact h
      | reset => simp [applyOp, reset_stats, initStats]
      | clear env =>
        unfold applyOp
        rw [clear_stats]
        exact h
  have hz := hstep ops initState rfl
  unfold get_stats
  exact hz
